import Mathlib

/-!
Verification of the issue-triage core of the Linear–GitHub bridge server
(`src/utils/linear.ts`): the keyword-weighted classifier `triageIssue`, the
agent-readiness assessor `prepareAgentReadyIssue`, and the hybrid-issue
coordinator `createHybridIssue`.  JavaScript strings are modelled as Lean
`String`s; `String.prototype.includes` and the ASCII fragment of
`String.prototype.toLowerCase` are modelled explicitly; floating-point
confidence arithmetic is modelled over `ℚ`; the two external create-issue
collaborators are abstracted as function parameters and every call to them is
recorded in an explicit trace.
-/

namespace GithubMcp

/-- ASCII lowercasing of a single character, as `toLowerCase` acts on ASCII. -/
def charLower (c : Char) : Char :=
  if 65 ≤ c.toNat ∧ c.toNat ≤ 90 then Char.ofNat (c.toNat + 32) else c

/-- Model of `s.toLowerCase()` restricted to ASCII. -/
def strLower (s : String) : String :=
  String.mk (s.data.map charLower)

/-- `listStartsWith s pat`: does the character list `s` start with `pat`? -/
def listStartsWith : List Char → List Char → Bool
  | _, [] => true
  | [], _ :: _ => false
  | c :: cs, d :: ds => c == d && listStartsWith cs ds

/-- `includesL pat s`: does the character list `s` contain `pat` as a
contiguous sublist?  Model of JavaScript `String.prototype.includes`. -/
def includesL (pat : List Char) : List Char → Bool
  | [] => pat.isEmpty
  | c :: rest => listStartsWith (c :: rest) pat || includesL pat rest

/-- Model of `s.includes(pat)`. -/
def includes (s pat : String) : Bool :=
  includesL pat.data s.data

/-- Model of `s.startsWith(pat)`. -/
def strStarts (s pat : String) : Bool :=
  listStartsWith s.data pat.data

/-- The lowercased `` `${title} ${description}` `` blob built by `triageIssue`. -/
def textOf (title description : String) : String :=
  strLower (title ++ " " ++ description)

/-- The lowercased `labels.join(" ")` blob built by `triageIssue`. -/
def labelTextOf (labels : List String) : String :=
  strLower (String.intercalate " " labels)

/-- The engineering (GitHub) keyword vocabulary of `triageIssue`. -/
def engineeringKeywords : List String :=
  ["bug", "error", "crash", "fix", "code", "debug", "debugging",
   "feature", "implement", "enhancement", "refactor", "refactoring",
   "api", "endpoint", "database", "sql", "schema", "migration",
   "server", "client", "infrastructure", "devops", "deployment",
   "terraform", "docker", "ci/cd", "pipeline", "build",
   "security", "vulnerability", "patch", "ssl", "certificate",
   "performance", "optimization", "memory", "cpu", "load", "scale",
   "javascript", "typescript", "react", "node", "python", "golang",
   "frontend", "backend", "web", "mobile", "responsive",
   "authentication", "authorization", "oauth", "jwt",
   "test", "testing", "unit test", "integration test", "qa",
   "review", "pull request", "merge", "branch",
   "dependency", "library", "package", "version", "update", "upgrade",
   "reefhr", "payroll", "integration", "clover", "payment processing"]

/-- The business (Linear) keyword vocabulary of `triageIssue`. -/
def businessKeywords : List String :=
  ["strategy", "roadmap", "planning", "product", "vision",
   "requirements", "specification", "analysis", "research",
   "market", "customer", "user", "client", "feedback",
   "competitive", "positioning", "value proposition",
   "design", "ux", "user experience", "wireframe", "mockup",
   "prototype", "user flow", "user journey", "persona",
   "budget", "revenue", "pricing", "cost", "roi", "profit",
   "sales", "marketing", "campaign", "promotion", "branding",
   "compliance", "legal", "gdpr", "privacy", "policy",
   "regulation", "audit", "certification", "standard",
   "hr", "hiring", "recruiting", "onboarding", "training",
   "process", "workflow", "procedure", "documentation",
   "meeting", "discussion", "decision", "approval",
   "partnership", "vendor", "supplier", "contract", "procurement",
   "negotiation", "relationship", "agreement"]

/-- The hybrid-indicator vocabulary of `triageIssue`. -/
def hybridKeywords : List String :=
  ["large feature", "epic", "project launch", "major release",
   "compliance implementation", "security initiative",
   "platform migration", "system overhaul", "integration project"]

/-- The curated strong engineering terms that score 3. -/
def engStrong : List String :=
  ["bug", "error", "crash", "api", "database", "deployment"]

/-- The curated strong business terms that score 3. -/
def busStrong : List String :=
  ["strategy", "roadmap", "compliance", "budget", "customer"]

/-- A keyword matches when either lowercased blob contains it:
`text.includes(keyword) || labelText.includes(keyword)`. -/
def kwMatch (text labelText kw : String) : Bool :=
  includes text kw || includes labelText kw

/-- Tiered weight of one matched keyword: 3 for a curated strong term,
2 for any other keyword longer than 8 characters, 1 otherwise. -/
def kwWeight (strong : List String) (kw : String) : Nat :=
  if strong.contains kw then 3 else if kw.length > 8 then 2 else 1

/-- The `forEach` accumulation of tiered keyword weights over a vocabulary. -/
def scoreVocab (strong : List String) (text labelText : String)
    (kws : List String) : Nat :=
  kws.foldl (fun acc kw => if kwMatch text labelText kw then acc + kwWeight strong kw else acc) 0

/-- The `forEach` accumulation over the hybrid vocabulary: each matched
hybrid indicator adds a flat 4. -/
def hybScoreOf (text labelText : String) : Nat :=
  hybridKeywords.foldl (fun acc kw => if kwMatch text labelText kw then acc + 4 else acc) 0

/-- The special-case engineering bonuses (`copilot`/`ai agent`/`automation`
adds 5; `agent/available`/`agent-ready` adds 5); both check only `text`. -/
def engBonus (text : String) : Nat :=
  (if includes text "copilot" || includes text "ai agent" || includes text "automation"
    then 5 else 0) +
  (if includes text "agent/available" || includes text "agent-ready" then 5 else 0)

/-- The special-case business bonus (`customer request`/`business requirement`
adds 4); checks only `text`. -/
def busBonus (text : String) : Nat :=
  if includes text "customer request" || includes text "business requirement" then 4 else 0

/-- Total engineering score of `triageIssue` on the given inputs. -/
def engScoreOf (title description : String) (labels : List String) : Nat :=
  scoreVocab engStrong (textOf title description) (labelTextOf labels) engineeringKeywords +
    engBonus (textOf title description)

/-- Total business score of `triageIssue` on the given inputs. -/
def busScoreOf (title description : String) (labels : List String) : Nat :=
  scoreVocab busStrong (textOf title description) (labelTextOf labels) businessKeywords +
    busBonus (textOf title description)

/-- Total hybrid score of `triageIssue` on the given inputs. -/
def hybridScoreOf (title description : String) (labels : List String) : Nat :=
  hybScoreOf (textOf title description) (labelTextOf labels)

/-- The three platforms an issue can be routed to. -/
inductive Platform where
  | github
  | linear
  | hybrid
deriving DecidableEq, Repr

/-- The ordered platform-decision rule of `triageIssue`:
`hybridScore > 0 && hybridScore >= Math.max(engineeringScore, businessScore)`
gives hybrid; else `engineeringScore > businessScore` gives github;
else linear. -/
def decidePlatform (eng bus hyb : Nat) : Platform :=
  if hyb > 0 ∧ hyb ≥ max eng bus then Platform.hybrid
  else if eng > bus then Platform.github
  else Platform.linear

/-- Pre-boost confidence of `triageIssue`: winning score over total score,
with fallback 0.5 when the guarding total is zero. -/
def rawConfidence (eng bus hyb : Nat) : ℚ :=
  let total : Nat := eng + bus + hyb
  if hyb > 0 ∧ hyb ≥ max eng bus then (hyb : ℚ) / (total : ℚ)
  else if eng > bus then
    (if total > 0 then (eng : ℚ) / (total : ℚ) else 1/2)
  else
    (if total > 0 then (bus : ℚ) / (total : ℚ) else 1/2)

/-- Final confidence: `Math.min(confidence * 1.1, 1.0)`. -/
def finalConfidence (eng bus hyb : Nat) : ℚ :=
  min (rawConfidence eng bus hyb * (11/10)) 1

/-- Platform decision of `triageIssue` on the raw inputs. -/
def triagePlatform (title description : String) (labels : List String) : Platform :=
  decidePlatform (engScoreOf title description labels)
    (busScoreOf title description labels) (hybridScoreOf title description labels)

/-- The mutually exclusive `type/` label chain in `triageIssue`
(first match wins: bug/error, feature/implement, security,
infrastructure/devops). -/
def typeLabelOf (text : String) : List String :=
  if includes text "bug" || includes text "error" then ["type/bug"]
  else if includes text "feature" || includes text "implement" then ["type/feature"]
  else if includes text "security" then ["type/security"]
  else if includes text "infrastructure" || includes text "devops" then ["type/infrastructure"]
  else []

/-- The GitHub-side suggested labels pushed when the platform is github or
hybrid: the `mcp/agent-ready` base label, the type label, the component
labels, and `agent/available`, in push order. -/
def githubSideLabels (text : String) : List String :=
  ["mcp/agent-ready"] ++ typeLabelOf text ++
  (if includes text "api" then ["component/api"] else []) ++
  (if includes text "web" || includes text "frontend" then ["component/web"] else []) ++
  (if includes text "database" then ["component/database"] else []) ++
  ["agent/available"]

/-- The Linear-side suggested labels pushed when the platform is linear or
hybrid, in push order. -/
def linearSideLabels (text : String) : List String :=
  (if includes text "product" then ["Product Strategy"] else []) ++
  (if includes text "business" then ["Business Requirements"] else []) ++
  (if includes text "design" || includes text "ux" then ["UX/Design"] else []) ++
  (if includes text "customer" then ["Customer Feedback"] else []) ++
  (if includes text "compliance" then ["Compliance"] else []) ++
  (if includes text "marketing" then ["Marketing"] else [])

/-- `suggestedLabels` accumulated by `triageIssue` for a resolved platform. -/
def suggestedLabelsOf (p : Platform) (text : String) : List String :=
  (if p = Platform.github ∨ p = Platform.hybrid then githubSideLabels text else []) ++
  (if p = Platform.linear ∨ p = Platform.hybrid then linearSideLabels text else [])

/-- `detectedKeywords`: every keyword of the three vocabularies matched in
either blob, in vocabulary order. -/
def detectedKeywordsOf (text labelText : String) : List String :=
  engineeringKeywords.filter (fun k => kwMatch text labelText k) ++
  businessKeywords.filter (fun k => kwMatch text labelText k) ++
  hybridKeywords.filter (fun k => kwMatch text labelText k)

/-- `detectedKeywords.join(", ") || fallback`: the JavaScript empty-string
fallback on the joined keyword list. -/
def joinedOr (l : List String) (fallback : String) : String :=
  if String.intercalate ", " l = "" then fallback else String.intercalate ", " l

/-- The reasoning string of `triageIssue`. -/
def reasoningOf (p : Platform) (detected : List String) : String :=
  match p with
  | Platform.hybrid =>
      "Hybrid issue detected requiring both business and technical work. Keywords: " ++
      joinedOr detected "complex project indicators" ++
      ". Will create coordinated issues in both GitHub (for engineering) and Linear (for business coordination)."
  | Platform.github =>
      "Engineering issue detected - requires code changes. Keywords: " ++
      joinedOr detected "technical indicators" ++
      ". Best managed on GitHub for Copilot agent integration and technical collaboration."
  | Platform.linear =>
      "Business/product issue detected - strategic or operational focus. Keywords: " ++
      joinedOr detected "business indicators" ++
      ". Best managed on Linear for product workflow and business coordination."

/-- Output record of `triageIssue` (the `TriageDecision` interface). -/
structure TriageDecision where
  platform : Platform
  reasoning : String
  confidence : ℚ
  suggestedLabels : List String
  isEngineering : Bool
  githubLabels : Option (List String)
  linearLabels : Option (List String)
  mcpLabels : Option (List String)
deriving DecidableEq, Repr

/-- The triage classifier `triageIssue(title, description, labels = [])`. -/
def triageIssue (title description : String) (labels : List String := []) :
    TriageDecision :=
  let text := textOf title description
  let labelText := labelTextOf labels
  let eng := engScoreOf title description labels
  let bus := busScoreOf title description labels
  let hyb := hybridScoreOf title description labels
  let p := decidePlatform eng bus hyb
  let suggested := suggestedLabelsOf p text
  { platform := p
    reasoning := reasoningOf p (detectedKeywordsOf text labelText)
    confidence := finalConfidence eng bus hyb
    suggestedLabels := suggested
    isEngineering := p = Platform.github
    githubLabels :=
      if p = Platform.github ∨ p = Platform.hybrid then
        some (suggested.filter (fun l =>
          strStarts l "type/" || strStarts l "component/" || includes l "agent"))
      else none
    linearLabels :=
      if p = Platform.linear ∨ p = Platform.hybrid then
        some (suggested.filter (fun l => !(includes l "/") && !(includes l "agent")))
      else none
    mcpLabels :=
      if p = Platform.github ∨ p = Platform.hybrid then
        some (suggested.filter (fun l => strStarts l "mcp/"))
      else none }

/-! ### Agent-readiness assessor -/

/-- The `GitHubIssue` record consumed by `prepareAgentReadyIssue`. -/
structure GitHubIssue where
  id : Nat
  number : Nat
  title : String
  body : String
  state : String
  labels : List (String × String)
  url : String
  createdAt : String
  updatedAt : String
deriving DecidableEq, Repr

/-- The lowercased `` `${title} ${body}` `` blob of `prepareAgentReadyIssue`. -/
def issueText (issue : GitHubIssue) : String :=
  strLower issue.title ++ " " ++ strLower issue.body

/-- The fixed disqualifying-phrase list for agent compatibility. -/
def agentIncompatibleKeywords : List String :=
  ["requires human decision", "needs stakeholder approval", "complex architecture",
   "requires domain expertise", "customer interaction", "legal review",
   "multiple team coordination", "breaking change"]

/-- Complexity tiers of an agent-ready assessment. -/
inductive Complexity where
  | simple
  | moderate
  | complex
deriving DecidableEq, Repr

/-- The three fixed complexity-indicator phrase lists. -/
structure ComplexityIndicators where
  simple : List String
  moderate : List String
  complex : List String

/-- `complexityIndicators` of `prepareAgentReadyIssue`. -/
def complexityIndicators : ComplexityIndicators where
  simple := ["bug fix", "typo", "update text", "add field", "simple validation"]
  moderate := ["new endpoint", "feature enhancement", "integration", "refactor"]
  complex := ["architecture", "migration", "security", "performance optimization",
              "multi-component"]

/-- The prerequisites accumulated by `prepareAgentReadyIssue`, in the fixed
check order database, test, api, security. -/
def prereqListOf (text : String) : List String :=
  (if includes text "database" then ["Database access required"] else []) ++
  (if includes text "test" then ["Test environment setup"] else []) ++
  (if includes text "api" then ["API documentation review"] else []) ++
  (if includes text "security" then ["Security requirements review"] else [])

/-- Output record of `prepareAgentReadyIssue` (the `AgentReadyIssue`
interface; the source spells the last field `prerequisities`). -/
structure AgentReadyIssue where
  issue : GitHubIssue
  agentCompatible : Bool
  complexityLevel : Complexity
  estimatedHours : Nat
  prerequisities : Option (List String)
deriving DecidableEq, Repr

/-- The agent-readiness assessor `prepareAgentReadyIssue(issue)`. -/
def prepareAgentReadyIssue (issue : GitHubIssue) : AgentReadyIssue :=
  let text := issueText issue
  let agentCompatible := !(agentIncompatibleKeywords.any (fun k => includes text k))
  let levelHours : Complexity × Nat :=
    if complexityIndicators.complex.any (fun k => includes text k) then
      (Complexity.complex, 16)
    else if complexityIndicators.moderate.any (fun k => includes text k) then
      (Complexity.moderate, 8)
    else (Complexity.simple, 2)
  let prerequisites := prereqListOf text
  { issue := issue
    agentCompatible := agentCompatible
    complexityLevel := levelHours.1
    estimatedHours := levelHours.2
    prerequisities := if prerequisites.length > 0 then some prerequisites else none }

/-! ### Hybrid coordinator -/

/-- The `CreateIssueInput` interface. -/
structure CreateIssueInput where
  title : String
  description : String
  platform : Platform
  owner : Option String
  repo : Option String
  teamId : Option String
  labels : Option (List String)
  assignee : Option String
  priority : Option Nat
deriving DecidableEq, Repr

/-- JavaScript falsiness of an optional string field (`!input.owner`):
missing or empty. -/
def optFalsy : Option String → Bool
  | none => true
  | some s => s.isEmpty

/-- The business-tracker issue record returned by the Linear collaborator. -/
structure LinearIssue where
  id : String
  title : String
  description : String
  url : String
deriving DecidableEq, Repr

/-- Result record of `createHybridIssue` (the `HybridIssueResult`
interface). -/
structure HybridIssueResult where
  githubIssue : GitHubIssue
  linearIssue : LinearIssue
  crossReferenced : Bool
  platform : Platform
deriving DecidableEq, Repr

/-- One call to an external create-issue collaborator, recorded in order. -/
inductive CallEvent where
  | ghCreate (input : CreateIssueInput)
  | lnCreate (input : CreateIssueInput)
deriving DecidableEq, Repr

/-- The input passed to `createGitHubIssue` on the hybrid success path. -/
def hybridGithubInput (input : CreateIssueInput) : CreateIssueInput :=
  { input with
    platform := Platform.github
    title := "[Tech] " ++ input.title
    description := input.description ++
      "\n\n---\n**MCP Bridge**: This is the technical implementation part of a hybrid issue. Business coordination tracked in Linear."
    labels := some ((input.labels.getD []) ++ ["mcp/synced", "agent/available", "type/hybrid"]) }

/-- The input passed to `createLinearIssue` on the hybrid success path; its
description carries the back-reference URL of the created GitHub issue. -/
def hybridLinearInput (input : CreateIssueInput) (githubUrl : String) : CreateIssueInput :=
  { input with
    platform := Platform.linear
    title := "[Business] " ++ input.title
    description := input.description ++
      "\n\n---\n**MCP Bridge**: This is the business coordination part of a hybrid issue. Technical implementation tracked in GitHub.\n\nLinked GitHub Issue: " ++
      githubUrl }

/-- The hybrid coordinator `createHybridIssue(input)`.  The two external
create operations are abstracted as the collaborators `gh` and `ln`; the
second component of the result is the ordered trace of collaborator calls.
Validation errors are returned as `Except.error` with the thrown message. -/
def createHybridIssue (gh : CreateIssueInput → GitHubIssue)
    (ln : CreateIssueInput → LinearIssue) (input : CreateIssueInput) :
    Except String HybridIssueResult × List CallEvent :=
  if input.platform ≠ Platform.hybrid then
    (Except.error "createHybridIssue requires platform to be 'hybrid'", [])
  else if optFalsy input.owner || optFalsy input.repo then
    (Except.error "GitHub owner and repo required for hybrid issues", [])
  else if optFalsy input.teamId then
    (Except.error "Linear teamId required for hybrid issues", [])
  else
    let ghInput := hybridGithubInput input
    let githubIssue := gh ghInput
    let lnInput := hybridLinearInput input githubIssue.url
    let linearIssue := ln lnInput
    (Except.ok
      { githubIssue := githubIssue
        linearIssue := linearIssue
        crossReferenced := true
        platform := Platform.hybrid },
     [CallEvent.ghCreate ghInput, CallEvent.lnCreate lnInput])

/-! ### Helper lemmas -/

theorem listStartsWith_self (l : List Char) : listStartsWith l l = true := by
  induction l with
  | nil => rfl
  | cons c cs ih => simp [listStartsWith, ih]

theorem includesL_append_self (pat pre : List Char) :
    includesL pat (pre ++ pat) = true := by
  induction pre with
  | nil =>
      cases pat with
      | nil => rfl
      | cons c cs => simp [includesL, listStartsWith_self]
  | cons c cs ih => simp [includesL, ih]

theorem includes_append_right (a b : String) : includes (a ++ b) b = true :=
  includesL_append_self b.data a.data

theorem foldl_if_add (p : String → Bool) (w : String → Nat) :
    ∀ (l : List String) (a : Nat),
      l.foldl (fun acc kw => if p kw then acc + w kw else acc) a =
        a + ((l.filter p).map w).sum := by
  intro l
  induction l with
  | nil => intro a; simp
  | cons x xs ih =>
      intro a
      cases hx : p x with
      | true => simp [List.filter_cons, hx, ih, Nat.add_assoc]
      | false => simp [List.filter_cons, hx, ih]

theorem sum_map_const_four (l : List String) :
    (l.map (fun _ => 4)).sum = 4 * l.length := by
  induction l with
  | nil => rfl
  | cons x xs ih => simp [ih]; ring

theorem rawConfidence_nonneg (e b h : Nat) : 0 ≤ rawConfidence e b h := by
  unfold rawConfidence
  split_ifs <;> positivity

theorem finalConfidence_mem_unit (e b h : Nat) :
    0 ≤ finalConfidence e b h ∧ finalConfidence e b h ≤ 1 := by
  unfold finalConfidence
  refine ⟨le_min ?_ ?_, min_le_right _ _⟩
  · have := rawConfidence_nonneg e b h
    positivity
  · norm_num

/-! ### Claim theorems -/

/-- C1: for every input (title, description, optional labels), `triageIssue`
resolves the platform by the ordered rule: hybrid when the hybrid score is
positive and at least both the engineering and business scores; else github
when the engineering score strictly exceeds the business score; otherwise
(ties and the all-zero case included) linear. -/
theorem triage_platform_rule (title description : String) (labels : List String) :
    (triageIssue title description labels).platform =
      (if 0 < hybridScoreOf title description labels ∧
          engScoreOf title description labels ≤ hybridScoreOf title description labels ∧
          busScoreOf title description labels ≤ hybridScoreOf title description labels
       then Platform.hybrid
       else if busScoreOf title description labels < engScoreOf title description labels
       then Platform.github
       else Platform.linear) := by
  show decidePlatform _ _ _ = _
  unfold decidePlatform
  simp only [gt_iff_lt, ge_iff_le, max_le_iff]

/-- C2: for all string inputs (empty strings included) `triageIssue` is total
and returns a platform among github, linear and hybrid together with a
confidence in the closed interval [0, 1]. -/
theorem triage_total_platform_confidence (title description : String)
    (labels : List String) :
    ((triageIssue title description labels).platform = Platform.github ∨
     (triageIssue title description labels).platform = Platform.linear ∨
     (triageIssue title description labels).platform = Platform.hybrid) ∧
    0 ≤ (triageIssue title description labels).confidence ∧
    (triageIssue title description labels).confidence ≤ 1 := by
  refine ⟨?_, ?_, ?_⟩
  · cases h : (triageIssue title description labels).platform
    · exact Or.inl rfl
    · exact Or.inr (Or.inl rfl)
    · exact Or.inr (Or.inr rfl)
  · exact (finalConfidence_mem_unit _ _ _).1
  · exact (finalConfidence_mem_unit _ _ _).2

/-- C3 counterexample: on empty title and description the platform is linear
as claimed, but the returned confidence is 11/20 = 0.55, not the claimed
0.5 — the 0.5 fallback is still scaled by the 1.1 boost. -/
theorem triage_empty_confidence_counterexample :
    (triageIssue "" "" []).platform = Platform.linear ∧
    (triageIssue "" "" []).confidence = 11/20 ∧ ((11 : ℚ)/20 ≠ 1/2) := by
  refine ⟨rfl, ?_, by norm_num⟩
  show finalConfidence 0 0 0 = 11/20
  norm_num [finalConfidence, rawConfidence]

/-- C3 amended: `triageIssue` with empty title and description (and no
labels) yields all three category scores zero, platform linear, and
confidence exactly 11/20 (the 0.5 fallback times the 1.1 boost). -/
theorem triage_empty_amended :
    engScoreOf "" "" [] = 0 ∧ busScoreOf "" "" [] = 0 ∧
    hybridScoreOf "" "" [] = 0 ∧
    (triageIssue "" "" []).platform = Platform.linear ∧
    (triageIssue "" "" []).confidence = 11/20 := by
  refine ⟨rfl, rfl, rfl, rfl, ?_⟩
  show finalConfidence 0 0 0 = 11/20
  norm_num [finalConfidence, rawConfidence]

/-- C4 counterexample: on input title "epic" the single matched hybrid
keyword "epic" contributes 4 to the hybrid score, while the claimed tiered
weight would be 1 (or at most 3 even if "epic" were a curated strong term);
the hybrid vocabulary is not scored by the tiered 3/2/1 weights. -/
theorem hybrid_tiered_counterexample :
    hybridScoreOf "epic" "" [] = 4 ∧
    scoreVocab [] (textOf "epic" "") (labelTextOf []) hybridKeywords = 1 ∧
    scoreVocab hybridKeywords (textOf "epic" "") (labelTextOf []) hybridKeywords = 3 ∧
    (4 : Nat) ≠ 1 ∧ (4 : Nat) ≠ 3 := by
  refine ⟨rfl, rfl, rfl, by decide, by decide⟩

/-- C4 amended: for the engineering and business vocabularies every matched
keyword contributes its tiered weight (3 for a curated strong term, 2 for
any other keyword longer than 8 characters, 1 otherwise), while every
matched hybrid keyword contributes a flat 4. -/
theorem keyword_score_amended (title description : String) (labels : List String) :
    (scoreVocab engStrong (textOf title description) (labelTextOf labels)
        engineeringKeywords =
      ((engineeringKeywords.filter
          (fun k => kwMatch (textOf title description) (labelTextOf labels) k)).map
        (kwWeight engStrong)).sum) ∧
    (scoreVocab busStrong (textOf title description) (labelTextOf labels)
        businessKeywords =
      ((businessKeywords.filter
          (fun k => kwMatch (textOf title description) (labelTextOf labels) k)).map
        (kwWeight busStrong)).sum) ∧
    (hybScoreOf (textOf title description) (labelTextOf labels) =
      4 * (hybridKeywords.filter
          (fun k => kwMatch (textOf title description) (labelTextOf labels) k)).length) := by
  refine ⟨?_, ?_, ?_⟩
  · rw [scoreVocab, foldl_if_add]
    simp
  · rw [scoreVocab, foldl_if_add]
    simp
  · rw [hybScoreOf,
      foldl_if_add (fun kw => kwMatch (textOf title description) (labelTextOf labels) kw)
        (fun _ => 4) hybridKeywords 0, sum_map_const_four]
    simp

/-- A concrete issue whose text contains "requires stakeholder approval". -/
def issueRequiresApproval : GitHubIssue :=
  { id := 1, number := 1, title := "Requires stakeholder approval", body := "",
    state := "open", labels := [], url := "", createdAt := "", updatedAt := "" }

/-- C5 counterexample: an issue whose lowercased text contains the phrase
"requires stakeholder approval" is still assessed `agentCompatible = true`:
the disqualifying-phrase list only carries "needs stakeholder approval", so
the claimed phrase does not disqualify. -/
theorem stakeholder_requires_counterexample :
    includes (issueText issueRequiresApproval) "requires stakeholder approval" = true ∧
    (prepareAgentReadyIssue issueRequiresApproval).agentCompatible = true := by
  refine ⟨by decide, by decide⟩

/-- C5 amended: for every issue whose lowercased title+body text contains
the phrase "needs stakeholder approval", `prepareAgentReadyIssue` returns
`agentCompatible = false`, regardless of which complexity indicator phrases
are also present. -/
theorem stakeholder_needs_incompatible (issue : GitHubIssue)
    (h : includes (issueText issue) "needs stakeholder approval" = true) :
    (prepareAgentReadyIssue issue).agentCompatible = false := by
  show (!(agentIncompatibleKeywords.any (fun k => includes (issueText issue) k))) = false
  simp only [Bool.not_eq_false', List.any_eq_true]
  exact ⟨"needs stakeholder approval", by decide, h⟩

/-- A concrete issue whose text contains "needs stakeholder approval" next
to complexity indicator phrases. -/
def issueNeedsApproval : GitHubIssue :=
  { id := 2, number := 2, title := "Needs stakeholder approval",
    body := "security migration architecture", state := "open", labels := [],
    url := "", createdAt := "", updatedAt := "" }

/-- C5 witness: the amended theorem applied to a concrete issue containing
"needs stakeholder approval" together with complexity indicators. -/
theorem stakeholder_needs_incompatible_witness :
    (prepareAgentReadyIssue issueNeedsApproval).agentCompatible = false :=
  stakeholder_needs_incompatible issueNeedsApproval (by decide)

/-- A concrete issue whose text contains "database migration" and
"security". -/
def issueDbMigration : GitHubIssue :=
  { id := 3, number := 3, title := "Database migration", body := "security",
    state := "open", labels := [], url := "", createdAt := "", updatedAt := "" }

/-- C6: `prepareAgentReadyIssue` resolves complexity by the ordered rule
complex (16h) → moderate (8h) → simple default (2h), matching the fixed
indicator phrase lists in that order; and on an issue containing
"database migration" and "security" it yields complex, 16 hours, and
prerequisites holding both the database-access and the security-review
entries. -/
theorem complexity_order_rule (issue : GitHubIssue) :
    (((prepareAgentReadyIssue issue).complexityLevel,
      (prepareAgentReadyIssue issue).estimatedHours) =
      (if ∃ kw ∈ complexityIndicators.complex, includes (issueText issue) kw = true
       then (Complexity.complex, 16)
       else if ∃ kw ∈ complexityIndicators.moderate, includes (issueText issue) kw = true
       then (Complexity.moderate, 8)
       else (Complexity.simple, 2))) ∧
    (prepareAgentReadyIssue issueDbMigration).complexityLevel = Complexity.complex ∧
    (prepareAgentReadyIssue issueDbMigration).estimatedHours = 16 ∧
    "Database access required" ∈
      ((prepareAgentReadyIssue issueDbMigration).prerequisities).getD [] ∧
    "Security requirements review" ∈
      ((prepareAgentReadyIssue issueDbMigration).prerequisities).getD [] := by
  refine ⟨?_, by decide, by decide, by decide, by decide⟩
  show (if complexityIndicators.complex.any (fun k => includes (issueText issue) k)
        then ((Complexity.complex, 16) : Complexity × Nat)
        else if complexityIndicators.moderate.any (fun k => includes (issueText issue) k)
        then (Complexity.moderate, 8)
        else (Complexity.simple, 2)) = _
  simp only [List.any_eq_true]

/-- C7: `createHybridIssue` fails with a validation error and performs zero
collaborator calls whenever the platform is not hybrid, or the GitHub owner
or repo is missing (absent or empty), or the Linear teamId is missing;
validation strictly precedes any collaborator invocation. -/
theorem hybrid_validation_no_calls (gh : CreateIssueInput → GitHubIssue)
    (ln : CreateIssueInput → LinearIssue) (input : CreateIssueInput)
    (h : input.platform ≠ Platform.hybrid ∨ optFalsy input.owner = true ∨
         optFalsy input.repo = true ∨ optFalsy input.teamId = true) :
    (∃ msg, (createHybridIssue gh ln input).1 = Except.error msg) ∧
    (createHybridIssue gh ln input).2 = [] := by
  unfold createHybridIssue
  split_ifs with h1 h2 h3
  · exact ⟨⟨_, rfl⟩, rfl⟩
  · exact ⟨⟨_, rfl⟩, rfl⟩
  · exact ⟨⟨_, rfl⟩, rfl⟩
  · exfalso
    simp only [Bool.or_eq_true, not_or, Bool.not_eq_true] at h2
    rcases h with h | h | h | h
    · exact h1 h
    · rw [h2.1] at h; exact Bool.false_ne_true h
    · rw [h2.2] at h; exact Bool.false_ne_true h
    · rw [Bool.not_eq_true] at h3; rw [h3] at h; exact Bool.false_ne_true h

/-- A constant code-host collaborator used in witnesses. -/
def ghMock : CreateIssueInput → GitHubIssue := fun _ =>
  { id := 10, number := 7, title := "t", body := "b", state := "open",
    labels := [], url := "https://github.com/o/r/issues/7", createdAt := "",
    updatedAt := "" }

/-- An echoing issue-tracker collaborator used in witnesses. -/
def lnMock : CreateIssueInput → LinearIssue := fun i =>
  { id := "LIN-1", title := i.title, description := i.description,
    url := "https://linear.app/issue/LIN-1" }

/-- A hybrid create input whose Linear teamId is missing. -/
def inputNoTeam : CreateIssueInput :=
  { title := "Hybrid work", description := "desc", platform := Platform.hybrid,
    owner := some "o", repo := some "r", teamId := none, labels := none,
    assignee := none, priority := none }

/-- C7 witness: the validation theorem applied to a concrete input with a
missing teamId and concrete recording collaborators. -/
theorem hybrid_validation_no_calls_witness :
    (∃ msg, (createHybridIssue ghMock lnMock inputNoTeam).1 = Except.error msg) ∧
    (createHybridIssue ghMock lnMock inputNoTeam).2 = [] :=
  hybrid_validation_no_calls ghMock lnMock inputNoTeam
    (Or.inr (Or.inr (Or.inr rfl)))

/-- C8: on the `createHybridIssue` success path the GitHub create call comes
first and the Linear create call second; the description sent to the Linear
collaborator contains the URL of the just-created GitHub record, and the
returned result carries that GitHub record, the created Linear record and
`crossReferenced = true`. -/
theorem hybrid_success_order_crossref (gh : CreateIssueInput → GitHubIssue)
    (ln : CreateIssueInput → LinearIssue) (input : CreateIssueInput)
    (hp : input.platform = Platform.hybrid) (ho : optFalsy input.owner = false)
    (hr : optFalsy input.repo = false) (ht : optFalsy input.teamId = false) :
    ∃ ghIn lnIn,
      (createHybridIssue gh ln input).2 =
        [CallEvent.ghCreate ghIn, CallEvent.lnCreate lnIn] ∧
      includes lnIn.description (gh ghIn).url = true ∧
      (createHybridIssue gh ln input).1 = Except.ok
        { githubIssue := gh ghIn, linearIssue := ln lnIn,
          crossReferenced := true, platform := Platform.hybrid } := by
  refine ⟨hybridGithubInput input,
    hybridLinearInput input (gh (hybridGithubInput input)).url, ?_, ?_, ?_⟩
  · unfold createHybridIssue
    rw [if_neg (by simp [hp]), if_neg (by simp [ho, hr]), if_neg (by simp [ht])]
  · exact includes_append_right _ _
  · unfold createHybridIssue
    rw [if_neg (by simp [hp]), if_neg (by simp [ho, hr]), if_neg (by simp [ht])]

/-- A fully specified hybrid create input. -/
def inputFull : CreateIssueInput :=
  { title := "Hybrid work", description := "desc", platform := Platform.hybrid,
    owner := some "o", repo := some "r", teamId := some "team", labels := none,
    assignee := none, priority := none }

/-- C8 witness: the success-path theorem applied to a concrete valid input
and concrete collaborators. -/
theorem hybrid_success_order_crossref_witness :
    ∃ ghIn lnIn,
      (createHybridIssue ghMock lnMock inputFull).2 =
        [CallEvent.ghCreate ghIn, CallEvent.lnCreate lnIn] ∧
      includes lnIn.description (ghMock ghIn).url = true ∧
      (createHybridIssue ghMock lnMock inputFull).1 = Except.ok
        { githubIssue := ghMock ghIn, linearIssue := lnMock lnIn,
          crossReferenced := true, platform := Platform.hybrid } :=
  hybrid_success_order_crossref ghMock lnMock inputFull rfl rfl rfl rfl

/-- The four mutually exclusive type labels. -/
def typeLabelSet : List String :=
  ["type/bug", "type/feature", "type/security", "type/infrastructure"]

theorem typeLabelOf_filter (text : String) :
    (typeLabelOf text).filter (fun l => typeLabelSet.contains l) = typeLabelOf text := by
  unfold typeLabelOf
  split_ifs <;> rfl

theorem typeLabelOf_length (text : String) : (typeLabelOf text).length ≤ 1 := by
  unfold typeLabelOf
  split_ifs <;> decide

theorem githubSideLabels_filter (text : String) :
    (githubSideLabels text).filter (fun l => typeLabelSet.contains l) =
      typeLabelOf text := by
  unfold githubSideLabels
  simp only [List.filter_append, typeLabelOf_filter]
  split_ifs <;>
    simp [List.filter_cons, List.filter_nil, typeLabelSet]

theorem linearSideLabels_filter (text : String) :
    (linearSideLabels text).filter (fun l => typeLabelSet.contains l) = [] := by
  unfold linearSideLabels
  simp only [List.filter_append]
  split_ifs <;>
    simp [List.filter_cons, List.filter_nil, typeLabelSet]

/-- C9: whenever the resolved platform is github or hybrid, the type labels
among the suggested labels are exactly the result of the first-match-wins
chain bug/error → feature/implement → security → infrastructure/devops, so
at most one of the four type labels is ever emitted. -/
theorem type_label_exclusive (title description : String) (labels : List String)
    (h : (triageIssue title description labels).platform = Platform.github ∨
         (triageIssue title description labels).platform = Platform.hybrid) :
    ((triageIssue title description labels).suggestedLabels.filter
        (fun l => typeLabelSet.contains l) =
      typeLabelOf (textOf title description)) ∧
    ((triageIssue title description labels).suggestedLabels.filter
        (fun l => typeLabelSet.contains l)).length ≤ 1 := by
  have hs : (triageIssue title description labels).suggestedLabels =
      suggestedLabelsOf ((triageIssue title description labels).platform)
        (textOf title description) := rfl
  have key : (triageIssue title description labels).suggestedLabels.filter
      (fun l => typeLabelSet.contains l) = typeLabelOf (textOf title description) := by
    rcases h with h | h
    · rw [hs, h]
      show (githubSideLabels (textOf title description) ++ []).filter
          (fun l => typeLabelSet.contains l) = _
      rw [List.append_nil, githubSideLabels_filter]
    · rw [hs, h]
      show ((githubSideLabels (textOf title description) ++
          linearSideLabels (textOf title description)).filter
          (fun l => typeLabelSet.contains l)) = _
      rw [List.filter_append, githubSideLabels_filter, linearSideLabels_filter,
        List.append_nil]
  exact ⟨key, key ▸ typeLabelOf_length _⟩

/-- C9 witness: on input text containing both "bug" and "security" the
platform resolves to github and only `type/bug` is emitted. -/
theorem type_label_exclusive_witness :
    (triageIssue "bug security" "" []).suggestedLabels.filter
        (fun l => typeLabelSet.contains l) = ["type/bug"] ∧
    ((triageIssue "bug security" "" []).suggestedLabels.filter
        (fun l => typeLabelSet.contains l)).length ≤ 1 := by
  have h := type_label_exclusive "bug security" "" [] (Or.inl (by decide))
  exact ⟨by rw [h.1]; decide, h.2⟩

theorem prereq_getD (issue : GitHubIssue) :
    ((prepareAgentReadyIssue issue).prerequisities).getD [] =
      prereqListOf (issueText issue) := by
  show (if (prereqListOf (issueText issue)).length > 0
        then some (prereqListOf (issueText issue)) else none).getD [] = _
  split_ifs with h
  · rfl
  · simp only [not_lt, Nat.le_zero, List.length_eq_zero] at h
    simp [h]

/-- C10: the prerequisites of `prepareAgentReadyIssue` form an ordered,
possibly empty, duplicate-free subsequence of the four fixed entries, and
each entry is present exactly when its topic keyword (database, test, api,
security, in that check order) occurs in the issue text. -/
theorem prerequisites_shape (issue : GitHubIssue) :
    (((prepareAgentReadyIssue issue).prerequisities).getD []).Sublist
      ["Database access required", "Test environment setup",
       "API documentation review", "Security requirements review"] ∧
    (((prepareAgentReadyIssue issue).prerequisities).getD []).Nodup ∧
    ("Database access required" ∈ ((prepareAgentReadyIssue issue).prerequisities).getD [] ↔
      includes (issueText issue) "database" = true) ∧
    ("Test environment setup" ∈ ((prepareAgentReadyIssue issue).prerequisities).getD [] ↔
      includes (issueText issue) "test" = true) ∧
    ("API documentation review" ∈ ((prepareAgentReadyIssue issue).prerequisities).getD [] ↔
      includes (issueText issue) "api" = true) ∧
    ("Security requirements review" ∈ ((prepareAgentReadyIssue issue).prerequisities).getD [] ↔
      includes (issueText issue) "security" = true) := by
  rw [prereq_getD]
  unfold prereqListOf
  cases hdb : includes (issueText issue) "database" <;>
  cases hts : includes (issueText issue) "test" <;>
  cases hap : includes (issueText issue) "api" <;>
  cases hse : includes (issueText issue) "security" <;>
    refine ⟨by decide, by decide, by simp, by simp, by simp, by simp⟩

end GithubMcp
